import Mathlib

/-!
Shallow embedding of the `usbd-audio-2.0` USB Audio Class 2.0 crate
(`src/src/lib.rs`): stream configuration and packet sizing, descriptor
emission, control-transfer dispatch, the data-path accessors, and the
builder.  Machine integers are modelled as `Nat` with explicit `% 2^w`
where the source performs fixed-width arithmetic.
-/

namespace UsbdAudio

/-- Sample encodings, from `enum Format` in the source. -/
inductive Format where
  | S16LE
  | S24LE
deriving DecidableEq, Repr

/-- Bytes per sample, from `Format::size` (returns `u8`). -/
def Format.size : Format → Nat
  | .S16LE => 2
  | .S24LE => 3

/-- Bit resolution, from `Format::res` (returns `u8`). -/
def Format.res : Format → Nat
  | .S16LE => 16
  | .S24LE => 24

/-- Modelled from the spec: `terminal_type.rs` is not under `src/`; the spec
says each terminal classification maps to a fixed 2-byte wire code, and the
source consumes it only through `as_bytes() -> [u8; 2]`.  We model a terminal
type directly as its two wire bytes. -/
structure TerminalType where
  b0 : Nat
  b1 : Nat
deriving DecidableEq, Repr

/-- Modelled from the spec: the generic USB-streaming terminal classification
(UAC2 wire code 0x0101). -/
def TerminalType.usbStreaming : TerminalType := ⟨0x01, 0x01⟩

/-- Stream configuration, from `struct StreamConfig`.  `rate` is a `u16`
in the source and `nChannels` a `u8`; theorems carry the corresponding
range hypotheses. -/
structure StreamConfig where
  format : Format
  rate : Nat
  nChannels : Nat
  termType : TerminalType
deriving DecidableEq, Repr

/-- `StreamConfig::packet_size`, from the source:
`size = format.size() * n_channels` is a `u8` product (hence `% 256`),
`samples = rate / 1000` is a `u16` floor division, and the result
`(samples + 1) * size` is a `u16` (hence `% 65536`). -/
def StreamConfig.packetSize (c : StreamConfig) : Nat :=
  let size := (c.format.size * c.nChannels) % 256
  let samples := c.rate / 1000
  ((samples + 1) * size) % 65536

/-! Entity identifiers, from the constants at the top of `lib.rs`. -/

def ID_CLOCK_SRC : Nat := 0x01

def ID_INPUT_TERMINAL : Nat := 0x02

def ID_INPUT_STREAMING : Nat := 0x03

def ID_OUTPUT_TERMINAL : Nat := 0x05

def ID_OUTPUT_STREAMING : Nat := 0x04

/-! Modelled from the spec: the module `class_codes.rs` is not under `src/`
(only its use sites are), so the named class codes below are taken at their
standard UAC2 / USB values, which the spec's descriptor table (§6) refers to
by name (CS_INTERFACE, CS_ENDPOINT, HEADER, terminal subtypes, audio class
and subclass codes, interface-protocol codes). -/

def CS_INTERFACE : Nat := 0x24

def CS_ENDPOINT : Nat := 0x25

def HEADER : Nat := 0x01

def INPUT_TERMINAL : Nat := 0x02

def OUTPUT_TERMINAL : Nat := 0x03

def AS_GENERAL : Nat := 0x01

def FORMAT_TYPE : Nat := 0x02

def FORMAT_TYPE_I : Nat := 0x01

def EP_GENERAL : Nat := 0x01

def AUDIO : Nat := 0x01

def AUDIOCONTROL : Nat := 0x01

def AUDIOSTREAMING : Nat := 0x02

def AUDIO_FUNCTION : Nat := 0x01

def FUNCTION_SUBCLASS_UNDEFINED : Nat := 0x00

def AF_VERSION_02_00 : Nat := 0x20

def IP_VERSION_02_00 : Nat := 0x20

def IP_UNDEFINED : Nat := 0x00

/-- Standard descriptor type INTERFACE (= 4), from
`usb_device::descriptor::descriptor_type::INTERFACE`. -/
def INTERFACE : Nat := 0x04

/-- One configured direction, from `struct AudioStream`.  The externally
allocated endpoint handle is represented by the two values the source reads
from it: `endpoint.address()` and `endpoint.interval()`. -/
structure AudioStream where
  streamConfig : StreamConfig
  interface : Nat
  epAddress : Nat
  epInterval : Nat
  altSetting : Nat
deriving DecidableEq, Repr

/-- One call this crate issues against the external `DescriptorWriter`:
either `writer.write(ty, payload)` or `writer.interface(num, cls, sub, proto)`. -/
inductive WCall where
  | write (ty : Nat) (payload : List Nat)
  | iface (num cls sub proto : Nat)
deriving DecidableEq, Repr

/-- A descriptor record as it lands in the configuration-descriptor stream:
descriptor type plus the payload following the two-byte (length, type) prefix.
`writer.interface` emits a standard interface descriptor with alternate
setting 0 and a zero endpoint count placeholder, per `usb_device`'s
`DescriptorWriter::interface_alt`. -/
structure WRecord where
  ty : Nat
  payload : List Nat
deriving DecidableEq, Repr

def callRecord : WCall → WRecord
  | .write ty payload => ⟨ty, payload⟩
  | .iface num cls sub proto => ⟨INTERFACE, [num, 0, 0, cls, sub, proto, 0]⟩

/-- Bytes a call consumes in the writer's buffer: two prefix bytes plus the
payload (`usb_device`'s `DescriptorWriter::write`). -/
def callCost : WCall → Nat
  | .write _ payload => 2 + payload.length
  | .iface _ _ _ _ => 9

/-- `AudioStream::input_ac_descriptor`: the Input Terminal / Output Terminal
pair for the input (device-to-host) direction. -/
def inputACCalls (s : AudioStream) : List WCall :=
  [ .write CS_INTERFACE [
      INPUT_TERMINAL,
      ID_INPUT_TERMINAL,
      s.streamConfig.termType.b0,
      s.streamConfig.termType.b1,
      0x00,
      ID_CLOCK_SRC,
      s.streamConfig.nChannels,
      0x00, 0x00, 0x00, 0x00,
      0x00,
      0x00, 0x00,
      0x00 ],
    .write CS_INTERFACE [
      OUTPUT_TERMINAL,
      ID_INPUT_STREAMING,
      TerminalType.usbStreaming.b0,
      TerminalType.usbStreaming.b1,
      0x00,
      ID_INPUT_TERMINAL,
      ID_CLOCK_SRC,
      0x00,
      0x00,
      0x00 ] ]

/-- `AudioStream::output_ac_descriptor`: the terminal pair for the output
(host-to-device) direction, with the terminal roles reversed. -/
def outputACCalls (s : AudioStream) : List WCall :=
  [ .write CS_INTERFACE [
      INPUT_TERMINAL,
      ID_OUTPUT_STREAMING,
      TerminalType.usbStreaming.b0,
      TerminalType.usbStreaming.b1,
      0x00,
      ID_CLOCK_SRC,
      s.streamConfig.nChannels,
      0x00, 0x00, 0x00, 0x00,
      0x00,
      0x00, 0x00,
      0x00 ],
    .write CS_INTERFACE [
      OUTPUT_TERMINAL,
      ID_OUTPUT_TERMINAL,
      s.streamConfig.termType.b0,
      s.streamConfig.termType.b1,
      0x00,
      ID_OUTPUT_STREAMING,
      ID_CLOCK_SRC,
      0x00,
      0x00,
      0x00 ] ]

/-- `AudioStream::input_as_ep_descriptor`: the AS interface pair, AS_GENERAL,
Format-Type-I, standard endpoint and class-specific endpoint descriptors for
the input direction.  The standard endpoint descriptor carries
`packet_size().to_be_bytes()` written low byte first (`max_transfer[1]` then
`max_transfer[0]`). -/
def inputASEpCalls (s : AudioStream) : List WCall :=
  [ .iface s.interface AUDIO AUDIOSTREAMING IP_VERSION_02_00,
    .write INTERFACE [
      s.interface,
      0x01,
      0x01,
      AUDIO,
      AUDIOSTREAMING,
      IP_VERSION_02_00,
      0x00 ],
    .write CS_INTERFACE [
      AS_GENERAL,
      ID_INPUT_STREAMING,
      0x00,
      0x01,
      0x01, 0x00, 0x00, 0x00,
      s.streamConfig.nChannels,
      0x00, 0x00, 0x00, 0x00,
      0x00 ],
    .write CS_INTERFACE [
      FORMAT_TYPE,
      FORMAT_TYPE_I,
      s.streamConfig.format.size,
      s.streamConfig.format.res ],
    .write 0x05 [
      s.epAddress,
      0b00100101,
      s.streamConfig.packetSize % 256,
      s.streamConfig.packetSize / 256,
      s.epInterval ],
    .write CS_ENDPOINT [
      EP_GENERAL,
      0x00,
      0x00,
      0x00,
      0x00, 0x00 ] ]

/-- `AudioStream::output_as_ep_descriptor`: as the input block, but with
`IP_UNDEFINED` on the `writer.interface` call, the output streaming terminal
link, and plain isochronous data attributes (no implicit feedback). -/
def outputASEpCalls (s : AudioStream) : List WCall :=
  [ .iface s.interface AUDIO AUDIOSTREAMING IP_UNDEFINED,
    .write INTERFACE [
      s.interface,
      0x01,
      0x01,
      AUDIO,
      AUDIOSTREAMING,
      IP_VERSION_02_00,
      0x00 ],
    .write CS_INTERFACE [
      AS_GENERAL,
      ID_OUTPUT_STREAMING,
      0x00,
      0x01,
      0x01, 0x00, 0x00, 0x00,
      s.streamConfig.nChannels,
      0x00, 0x00, 0x00, 0x00,
      0x00 ],
    .write CS_INTERFACE [
      FORMAT_TYPE,
      FORMAT_TYPE_I,
      s.streamConfig.format.size,
      s.streamConfig.format.res ],
    .write 0x05 [
      s.epAddress,
      0b00000101,
      s.streamConfig.packetSize % 256,
      s.streamConfig.packetSize / 256,
      s.epInterval ],
    .write CS_ENDPOINT [
      EP_GENERAL,
      0x00,
      0x00,
      0x00,
      0x00, 0x00 ] ]

/-- The record list a per-stream emission function produces. -/
def inputASEpRecs (s : AudioStream) : List WRecord :=
  (inputASEpCalls s).map callRecord

def outputASEpRecs (s : AudioStream) : List WRecord :=
  (outputASEpCalls s).map callRecord

/-- The class state, from `struct AudioClass`: control interface, the two
optional streams, and the stateful clock-range query cursor (`clock_index`,
a `u8`). -/
structure AudioClass where
  controlInterface : Nat
  input : Option AudioStream
  output : Option AudioStream
  clockIndex : Nat
deriving DecidableEq, Repr

/-- Number of configured streams, from the `n_interfaces` computation in
`get_configuration_descriptors`. -/
def nInterfaces (ac : AudioClass) : Nat :=
  (if ac.input.isSome then 1 else 0) + (if ac.output.isSome then 1 else 0)

/-- The wTotalLength value of the Audio Control header:
`(9 + 8 + 29 * n_interfaces) as u16` (at most 75, so the `u16` cast is
lossless). -/
def acTotalLength (ac : AudioClass) : Nat :=
  9 + 8 + 29 * nInterfaces ac

/-- Apply an emission function to a configured stream, or emit nothing:
the `if let Some(ref s) = ...` pattern of the source. -/
def optCalls : Option AudioStream → (AudioStream → List WCall) → List WCall
  | some s, f => f s
  | none, _ => []

/-- Tag every call of a block with the unwrap error policy of the source
(`false` = a failure panics via `.unwrap()`). -/
def tagAll (l : List WCall) : List (WCall × Bool) :=
  l.map fun c => (c, false)

/-- The fixed leading calls of `get_configuration_descriptors`: the
Interface Association Descriptor, the Audio Control interface, the Audio
Control header, and the Clock Source descriptor.  The header call is tagged
`true` because it is the one write whose `Result` the source discards
(line 413 has no `.unwrap()`); every other call unwraps. -/
def baseTagged (ac : AudioClass) : List (WCall × Bool) :=
  [ (.write 0x0B [
      0x00,
      nInterfaces ac + 1,
      AUDIO_FUNCTION,
      FUNCTION_SUBCLASS_UNDEFINED,
      AF_VERSION_02_00,
      0x00 ], false),
    (.iface ac.controlInterface AUDIO AUDIOCONTROL IP_VERSION_02_00, false),
    (.write CS_INTERFACE [
      HEADER,
      0x00,
      0x02,
      0x00,
      acTotalLength ac % 256,
      acTotalLength ac / 256,
      0x00 ], true),
    (.write CS_INTERFACE [
      0x0A,
      ID_CLOCK_SRC,
      0b00000001,
      0b00000001,
      0x00,
      0x00 ], false) ]

/-- The full call sequence of `get_configuration_descriptors`, in source
order: preamble, then AC terminal pairs (input first), then AS
interface+endpoint blocks (input first). -/
def getConfCalls (ac : AudioClass) : List (WCall × Bool) :=
  baseTagged ac
    ++ tagAll (optCalls ac.input inputACCalls)
    ++ tagAll (optCalls ac.output outputACCalls)
    ++ tagAll (optCalls ac.input inputASEpCalls)
    ++ tagAll (optCalls ac.output outputASEpCalls)

/-- The descriptor stream the class asks the writer to emit. -/
def descriptors (ac : AudioClass) : List WRecord :=
  (getConfCalls ac).map fun p => callRecord p.1

/-- The records up to and including the Audio Control section (preamble and
terminal pairs). -/
def acSection (ac : AudioClass) : List WRecord :=
  (baseTagged ac
    ++ tagAll (optCalls ac.input inputACCalls)
    ++ tagAll (optCalls ac.output outputACCalls)).map fun p => callRecord p.1

/-- The Audio Streaming section: the per-stream AS interface+endpoint
blocks. -/
def asSection (ac : AudioClass) : List WRecord :=
  (tagAll (optCalls ac.input inputASEpCalls)
    ++ tagAll (optCalls ac.output outputASEpCalls)).map fun p => callRecord p.1

/-- State of the external `DescriptorWriter`: buffer capacity in bytes,
bytes used so far, and the records successfully written. -/
structure DW where
  capacity : Nat
  used : Nat
  recs : List WRecord
deriving DecidableEq, Repr

/-- One write against the buffer: fails (returning the writer unchanged)
when the two prefix bytes plus the payload do not fit, as in
`usb_device`'s `DescriptorWriter::write`. -/
def writeCall (w : DW) (c : WCall) : Option DW :=
  if w.used + callCost c ≤ w.capacity then
    some { w with used := w.used + callCost c, recs := w.recs ++ [callRecord c] }
  else
    none

/-- Run a tagged call sequence against a writer.  A failing call tagged
`true` has its error discarded and the run continues (the source drops that
`Result`); a failing call tagged `false` aborts the run, modelling the
`.unwrap()` panic — the Boolean result is `true` exactly when the run
panicked.  Note there is no outcome in which the enclosing function returns
an error value: the source's `get_configuration_descriptors` can only return
`Ok(())` or panic. -/
def runWriter : DW → List (WCall × Bool) → DW × Bool
  | w, [] => (w, false)
  | w, (c, ign) :: rest =>
    match writeCall w c with
    | some w2 => runWriter w2 rest
    | none => if ign then runWriter w rest else (w, true)

/-! Control-transfer dispatch. -/

/-- Request type field, from `usb_device::control::RequestType`. -/
inductive RequestType where
  | Standard
  | Class
  | Vendor
  | Reserved
deriving DecidableEq, Repr

/-- Request recipient field, from `usb_device::control::Recipient`. -/
inductive Recipient where
  | Device
  | Interface
  | Endpoint
  | Other
deriving DecidableEq, Repr

/-- A parsed control request (`usb_device::control::Request`): `request` is
a `u8`; `value`, `index` and `length` are `u16` values, carried as `Nat`
with the `% 2^16` range assumed at use sites exactly as the source's casts
impose it. -/
structure USBRequest where
  requestType : RequestType
  recipient : Recipient
  request : Nat
  value : Nat
  index : Nat
  length : Nat
deriving DecidableEq, Repr

/-- Standard request code GET_INTERFACE, from `usb_device::control::Request`. -/
def GET_INTERFACE : Nat := 10

/-- Standard request code SET_INTERFACE, from `usb_device::control::Request`. -/
def SET_INTERFACE : Nat := 11

/-- Match one optional stream against an addressed interface number and
produce the 1-byte GET_INTERFACE reply, mirroring the
`if let Some(input) = ... { if interface == input.interface.into() }`
early-return pattern. -/
def matchStream (ifn : Nat) : Option AudioStream → Option (List Nat)
  | some s => if ifn = s.interface then some [s.altSetting] else none
  | none => none

/-- `AudioClass::control_in` as a pure transition: the successor state and
the accepted reply bytes, if any (`none` models leaving the transfer
unhandled).  The addressed interface is `req.index as u8`, i.e. the low
byte; the clock-entity condition reads the high bytes of `index` and
`value`; the clock cursor is a `u8`, so its increment wraps mod 256. -/
def controlIn (ac : AudioClass) (req : USBRequest) :
    AudioClass × Option (List Nat) :=
  if req.requestType = RequestType.Standard
      ∧ req.recipient = Recipient.Interface
      ∧ req.request = GET_INTERFACE
      ∧ req.length = 1 then
    let ifn := req.index % 256
    (ac, (matchStream ifn ac.input).orElse fun _ => matchStream ifn ac.output)
  else if req.requestType = RequestType.Class
      ∧ req.recipient = Recipient.Interface
      ∧ req.index / 256 % 256 = ID_CLOCK_SRC
      ∧ req.value / 256 = 0x01 then
    if req.request = 0x02 then
      if ac.clockIndex = 0 then
        ({ ac with clockIndex := 1 }, some [0x01, 0x00])
      else
        ({ ac with clockIndex := (ac.clockIndex + 1) % 256 },
          some [0x01, 0x00,
                0x80, 0x3E, 0x00, 0x00,
                0x80, 0x3E, 0x00, 0x00,
                0x01, 0x00, 0x00, 0x00])
    else if req.request = 0x01 then
      (ac, some [0x80, 0x3E, 0x00, 0x00])
    else
      (ac, none)
  else
    (ac, none)

/-- `AudioClass::control_out` as a pure transition: the successor state and
whether the transfer was accepted.  SET_INTERFACE stores `req.value as u8`
into the matched stream's `alt_setting` with no validation. -/
def controlOut (ac : AudioClass) (req : USBRequest) : AudioClass × Bool :=
  if req.requestType = RequestType.Standard
      ∧ req.recipient = Recipient.Interface
      ∧ req.request = SET_INTERFACE then
    let ifn := req.index % 256
    let alt := req.value % 256
    match ac.input with
    | some s =>
      if ifn = s.interface then
        ({ ac with input := some { s with altSetting := alt } }, true)
      else
        match ac.output with
        | some t =>
          if ifn = t.interface then
            ({ ac with output := some { t with altSetting := alt } }, true)
          else (ac, false)
        | none => (ac, false)
    | none =>
      match ac.output with
      | some t =>
        if ifn = t.interface then
          ({ ac with output := some { t with altSetting := alt } }, true)
        else (ac, false)
      | none => (ac, false)
  else
    (ac, false)

/-! Data path and accessors. -/

/-- The crate's error type, from `enum Error`.  The transport error wrapped
by `UsbError` is opaque to the core; we carry it as a numeric code. -/
inductive Error where
  | usbError (e : Nat)
  | streamNotInitialized
deriving DecidableEq, Repr

/-- `AudioClass::read`: forwards to the output stream's endpoint when one is
configured.  The underlying endpoint transfer is external; its outcome is
the `epResult` argument. -/
def AudioClass.read (ac : AudioClass) (epResult : Except Nat Nat) :
    Except Error Nat :=
  match ac.output with
  | some _ => epResult.mapError Error.usbError
  | none => Except.error Error.streamNotInitialized

/-- `AudioClass::write`: forwards to the input stream's endpoint when one is
configured. -/
def AudioClass.write (ac : AudioClass) (epResult : Except Nat Nat) :
    Except Error Nat :=
  match ac.input with
  | some _ => epResult.mapError Error.usbError
  | none => Except.error Error.streamNotInitialized

/-- `AudioClass::input_alt_setting`. -/
def AudioClass.inputAltSetting (ac : AudioClass) : Except Error Nat :=
  match ac.input with
  | some s => Except.ok s.altSetting
  | none => Except.error Error.streamNotInitialized

/-- `AudioClass::output_alt_setting`. -/
def AudioClass.outputAltSetting (ac : AudioClass) : Except Error Nat :=
  match ac.output with
  | some s => Except.ok s.altSetting
  | none => Except.error Error.streamNotInitialized

/-! The builder. -/

/-- `AudioClassBuilder::build`, on a fresh allocator whose interface counter
starts at `base` (usb-device hands out consecutive interface numbers): the
control interface is allocated first, then one interface per configured
direction, input first.  Endpoint addresses and intervals come from the
external allocator and are parameters here.  Both streams start at
`DEFAULT_ALTERNATE_SETTING = 0`, and the clock cursor starts at 0. -/
def build (base : Nat) (inCfg outCfg : Option StreamConfig)
    (inAddr inIntv outAddr outIntv : Nat) : AudioClass :=
  { controlInterface := base,
    input := inCfg.map fun c =>
      { streamConfig := c, interface := base + 1,
        epAddress := inAddr, epInterval := inIntv, altSetting := 0 },
    output := outCfg.map fun c =>
      { streamConfig := c,
        interface := base + 1 + (if inCfg.isSome then 1 else 0),
        epAddress := outAddr, epInterval := outIntv, altSetting := 0 },
    clockIndex := 0 }

/-! Reachability: states produced from an initial state by any sequence of
`control_in` / `control_out` invocations. -/

inductive Reaches : AudioClass → AudioClass → Prop
  | refl (ac : AudioClass) : Reaches ac ac
  | stepIn {a b : AudioClass} (req : USBRequest) :
      Reaches a b → Reaches a (controlIn b req).1
  | stepOut {a b : AudioClass} (req : USBRequest) :
      Reaches a b → Reaches a (controlOut b req).1

/-- Reachability restricted to hosts that only ever request the alternate
settings the descriptor set declares: every SET_INTERFACE transfer carries a
value whose low byte is 0 or 1. -/
inductive ReachesGood : AudioClass → AudioClass → Prop
  | refl (ac : AudioClass) : ReachesGood ac ac
  | stepIn {a b : AudioClass} (req : USBRequest) :
      ReachesGood a b → ReachesGood a (controlIn b req).1
  | stepOut {a b : AudioClass} (req : USBRequest) :
      ReachesGood a b → (req.request = SET_INTERFACE → req.value % 256 ≤ 1) →
      ReachesGood a (controlOut b req).1

/-- Both streams' alternate settings are 0 or 1. -/
def altOK (ac : AudioClass) : Prop :=
  (∀ s, ac.input = some s → s.altSetting ≤ 1) ∧
  (∀ s, ac.output = some s → s.altSetting ≤ 1)

/-! Endianness helpers: the byte lists a 16-bit (resp. 32-bit) value takes
in big-endian and little-endian order. -/

def beBytes2 (n : Nat) : List Nat := [n / 256 % 256, n % 256]

def leBytes2 (n : Nat) : List Nat := [n % 256, n / 256 % 256]

def leBytes4 (n : Nat) : List Nat :=
  [n % 256, n / 256 % 256, n / 65536 % 256, n / 16777216 % 256]

def c1cex : StreamConfig := ⟨.S24LE, 48000, 255, .usbStreaming⟩

def c8cex : StreamConfig := ⟨.S16LE, 48000, 128, .usbStreaming⟩

def c3req : USBRequest := ⟨.Class, .Interface, 0x02, 0x0100, 0x0100, 0⟩

def c10req : USBRequest := ⟨.Class, .Interface, 0x01, 0x0100, 0x0100, 0⟩

def c10ac : AudioClass :=
  build 0 (some ⟨.S24LE, 44100, 2, .usbStreaming⟩) none 0x81 1 0 0

def c5ac : AudioClass :=
  build 0 (some ⟨.S16LE, 48000, 2, .usbStreaming⟩)
    (some ⟨.S16LE, 48000, 2, .usbStreaming⟩) 0x81 1 0x01 1

def c5reqIn : USBRequest := ⟨.Standard, .Interface, GET_INTERFACE, 0, 1, 1⟩

def c5reqNone : USBRequest := ⟨.Standard, .Interface, GET_INTERFACE, 0, 7, 1⟩

def c6ac : AudioClass := build 0 none (some ⟨.S16LE, 48000, 2, .usbStreaming⟩) 0 0 1 1

def c4cfg : StreamConfig := ⟨.S16LE, 48000, 2, .usbStreaming⟩

def c4ac0 : AudioClass := build 0 (some c4cfg) none 0x81 1 0 0

def c4req : USBRequest := ⟨.Standard, .Interface, SET_INTERFACE, 2, 1, 0⟩

def c4ac1 : AudioClass := (controlOut c4ac0 c4req).1

def c4wreq : USBRequest := ⟨.Standard, .Interface, SET_INTERFACE, 1, 1, 0⟩

/-- An Audio Streaming standard interface descriptor for the active
alternate setting 1 — each AS interface+endpoint block contains exactly
one. -/
def isASAlt1 (r : WRecord) : Bool :=
  r.ty == INTERFACE && r.payload.get? 1 == some 1
    && r.payload.get? 4 == some AUDIOSTREAMING

/-- A standard endpoint descriptor (type 0x05). -/
def isStdEp (r : WRecord) : Bool := r.ty == 0x05

/-- A class-specific endpoint descriptor. -/
def isCSEp (r : WRecord) : Bool := r.ty == CS_ENDPOINT

/-- The Clock Source descriptor (CS_INTERFACE subtype 0x0A). -/
def isClockSrcRec (r : WRecord) : Bool :=
  r.ty == CS_INTERFACE && r.payload.get? 0 == some 0x0A

/-- An Input Terminal descriptor (CS_INTERFACE subtype 0x02 with the
15-byte terminal payload, distinguishing it from the 4-byte Format-Type
descriptor that shares the subtype value in AS context). -/
def isInputTermRec (r : WRecord) : Bool :=
  r.ty == CS_INTERFACE && r.payload.get? 0 == some INPUT_TERMINAL
    && r.payload.length == 15

/-- An Output Terminal descriptor (CS_INTERFACE subtype 0x03, 10-byte
payload). -/
def isOutputTermRec (r : WRecord) : Bool :=
  r.ty == CS_INTERFACE && r.payload.get? 0 == some OUTPUT_TERMINAL
    && r.payload.length == 10

def c2ac : AudioClass :=
  build 0 (some ⟨.S16LE, 48000, 2, .usbStreaming⟩) none 0x81 1 0 0

def c7s : AudioStream := ⟨⟨.S16LE, 48000, 2, .usbStreaming⟩, 1, 0x81, 1, 0⟩

/-- The Audio Control header record (CS_INTERFACE subtype HEADER, 7-byte
payload). -/
def isACHeaderRec (r : WRecord) : Bool :=
  r.ty == CS_INTERFACE && r.payload.get? 0 == some HEADER
    && r.payload.length == 7

def c9ac : AudioClass := build 0 none none 0 0 0 0

def c9w : DW := ⟨25, 0, []⟩

/-! Helper lemmas. -/

/-- When the per-frame byte count fits in a `u8` and the rate fits in a
`u16`, no truncation happens anywhere in `packet_size`. -/
lemma packetSize_eq_of_bounds (c : StreamConfig) (h1 : c.rate < 65536)
    (h2 : c.format.size * c.nChannels ≤ 255) :
    c.packetSize = (c.rate / 1000 + 1) * (c.format.size * c.nChannels) := by
  have hs : (c.format.size * c.nChannels) % 256 = c.format.size * c.nChannels :=
    Nat.mod_eq_of_lt (Nat.lt_succ_of_le h2)
  have hdiv : c.rate / 1000 ≤ 65 := by
    have hr : c.rate ≤ 65535 := Nat.lt_succ_iff.mp h1
    calc c.rate / 1000 ≤ 65535 / 1000 := Nat.div_le_div_right hr
      _ = 65 := by norm_num
  have hprod : (c.rate / 1000 + 1) * (c.format.size * c.nChannels) < 65536 := by
    calc (c.rate / 1000 + 1) * (c.format.size * c.nChannels)
        ≤ 66 * 255 := Nat.mul_le_mul (by omega) h2
      _ < 65536 := by norm_num
  show ((c.rate / 1000 + 1) * ((c.format.size * c.nChannels) % 256)) % 65536 = _
  rw [hs, Nat.mod_eq_of_lt hprod]

lemma format_size_pos (f : Format) : 0 < f.size := by
  cases f <;> decide

/-! Claim theorems. -/

/-- Claim C1, counterexample: at 255 channels of S24LE the per-frame byte
count `format.size() * n_channels` (a `u8` product) truncates, so
`packet_size()` (12397) differs from
`(⌊rate / 1000⌋ + 1) * channel_count * byte_size` (37485). -/
theorem packetSize_formula_cex :
    c1cex.packetSize = 12397 ∧
    (c1cex.rate / 1000 + 1) * c1cex.nChannels * c1cex.format.size = 37485 ∧
    ¬ (c1cex.packetSize
        = (c1cex.rate / 1000 + 1) * c1cex.nChannels * c1cex.format.size) := by
  decide

/-- Claim C1 (amended): whenever `channel_count * format.byte_size` fits in
a `u8` (in particular for every USB-Audio-legal configuration),
`packet_size()` equals `(⌊sample_rate / 1000⌋ + 1) * channel_count *
format.byte_size`; in particular it is 196 for 48000 Hz, 2 channels, S16LE,
and 270 for 44100 Hz, 2 channels, S24LE. -/
theorem packetSize_formula :
    (∀ c : StreamConfig, c.rate < 65536 → c.format.size * c.nChannels ≤ 255 →
      c.packetSize = (c.rate / 1000 + 1) * c.nChannels * c.format.size) ∧
    StreamConfig.packetSize ⟨.S16LE, 48000, 2, .usbStreaming⟩ = 196 ∧
    StreamConfig.packetSize ⟨.S24LE, 44100, 2, .usbStreaming⟩ = 270 := by
  refine ⟨fun c h1 h2 => ?_, by decide, by decide⟩
  rw [packetSize_eq_of_bounds c h1 h2]
  ring

/-- Claim C1, witness: the general formula applied at the 48 kHz concrete
configuration. -/
theorem packetSize_formula_witness :
    StreamConfig.packetSize ⟨.S16LE, 48000, 2, .usbStreaming⟩
      = (48000 / 1000 + 1) * 2 * 2 :=
  packetSize_formula.1 ⟨.S16LE, 48000, 2, .usbStreaming⟩ (by decide) (by decide)

/-- Claim C8, counterexample: 128 channels of S16LE satisfy the claim's
hypotheses (rate in [1000, 96000], at least one channel) yet
`format.size() * n_channels = 256` truncates to 0 in `u8`, so
`packet_size()` is 0 — not strictly positive. -/
theorem packetSize_pos_dvd_cex :
    1000 ≤ c8cex.rate ∧ c8cex.rate ≤ 96000 ∧ 1 ≤ c8cex.nChannels ∧
    c8cex.packetSize = 0 ∧ ¬ (0 < c8cex.packetSize) := by
  decide

/-- Claim C8 (amended): for every `StreamConfig` with sample rate in
[1000, 96000] that fits the `u16` rate field, at least one channel, and a
per-frame byte count `channel_count * byte_size` that fits in a `u8`,
`packet_size()` is strictly positive and a multiple of
`channel_count * format.byte_size`. -/
theorem packetSize_pos_dvd :
    ∀ c : StreamConfig, 1000 ≤ c.rate → c.rate ≤ 96000 → c.rate < 65536 →
      1 ≤ c.nChannels → c.format.size * c.nChannels ≤ 255 →
      0 < c.packetSize ∧ (c.nChannels * c.format.size) ∣ c.packetSize := by
  intro c _ _ h3 h4 h5
  rw [packetSize_eq_of_bounds c h3 h5]
  constructor
  · exact Nat.mul_pos (Nat.succ_pos _)
      (Nat.mul_pos (format_size_pos c.format) h4)
  · rw [Nat.mul_comm c.format.size c.nChannels]
    exact dvd_mul_left _ _

/-- Claim C8, witness: positivity and divisibility at the 48 kHz stereo
S16LE configuration. -/
theorem packetSize_pos_dvd_witness :
    0 < StreamConfig.packetSize ⟨.S16LE, 48000, 2, .usbStreaming⟩ ∧
    (2 * 2) ∣ StreamConfig.packetSize ⟨.S16LE, 48000, 2, .usbStreaming⟩ :=
  packetSize_pos_dvd ⟨.S16LE, 48000, 2, .usbStreaming⟩
    (by decide) (by decide) (by decide) (by decide) (by decide)

/-- Claim C3: a class-specific GET_RANGE control-in transfer addressed to
the clock-source entity with the clock-frequency selector replies with the
2-byte sub-range count when the cursor is 0 (advancing the cursor to 1),
and with the full 14-byte one-sub-range payload (count, min, max,
resolution at the one nominal frequency) on every invocation with a nonzero
cursor, advancing the 8-bit cursor by one (mod 2^8). -/
theorem clock_range_query (ac : AudioClass) (req : USBRequest)
    (h1 : req.requestType = RequestType.Class)
    (h2 : req.recipient = Recipient.Interface)
    (h3 : req.index / 256 % 256 = ID_CLOCK_SRC)
    (h4 : req.value / 256 = 0x01)
    (h5 : req.request = 0x02) :
    (ac.clockIndex = 0 →
      controlIn ac req = ({ ac with clockIndex := 1 }, some [0x01, 0x00])) ∧
    (ac.clockIndex ≠ 0 →
      controlIn ac req =
        ({ ac with clockIndex := (ac.clockIndex + 1) % 256 },
          some [0x01, 0x00,
                0x80, 0x3E, 0x00, 0x00,
                0x80, 0x3E, 0x00, 0x00,
                0x01, 0x00, 0x00, 0x00])) := by
  constructor
  · intro h0
    simp [controlIn, h1, h2, h3, h4, h5, h0]
  · intro hne
    simp [controlIn, h1, h2, h3, h4, h5, hne]

/-- Claim C3, witness: both cursor regimes at concrete states. -/
theorem clock_range_query_witness :
    controlIn ⟨0, none, none, 0⟩ c3req
      = (⟨0, none, none, 1⟩, some [0x01, 0x00]) ∧
    controlIn ⟨0, none, none, 5⟩ c3req
      = (⟨0, none, none, 6⟩,
          some [0x01, 0x00,
                0x80, 0x3E, 0x00, 0x00,
                0x80, 0x3E, 0x00, 0x00,
                0x01, 0x00, 0x00, 0x00]) :=
  ⟨(clock_range_query ⟨0, none, none, 0⟩ c3req rfl rfl rfl rfl rfl).1 rfl,
   (clock_range_query ⟨0, none, none, 5⟩ c3req rfl rfl rfl rfl rfl).2
     (by decide)⟩

/-- Claim C10: a class-specific GET_CUR control-in transfer addressed to
the clock-source entity with the clock-frequency selector always replies
with the fixed bytes 0x80 0x3E 0x00 0x00 — 16000 Hz little-endian —
independent of any configured stream's sample rate, and leaves the whole
class state (clock cursor and both alternate settings) unchanged. -/
theorem clock_cur_query (ac : AudioClass) (req : USBRequest)
    (h1 : req.requestType = RequestType.Class)
    (h2 : req.recipient = Recipient.Interface)
    (h3 : req.index / 256 % 256 = ID_CLOCK_SRC)
    (h4 : req.value / 256 = 0x01)
    (h5 : req.request = 0x01) :
    controlIn ac req = (ac, some (leBytes4 16000)) ∧
    leBytes4 16000 = [0x80, 0x3E, 0x00, 0x00] := by
  constructor
  · simp [controlIn, h1, h2, h3, h4, h5, leBytes4]
  · decide

/-- Claim C10, witness: the fixed reply at a class configured for 44.1 kHz,
whose rate does not influence the answer. -/
theorem clock_cur_query_witness :
    controlIn c10ac c10req = (c10ac, some (leBytes4 16000)) :=
  (clock_cur_query c10ac c10req rfl rfl rfl rfl rfl).1

/-- Claim C5: a standard GET_INTERFACE control-in transfer (recipient
interface, length 1) addressed — via the low byte of wIndex, which is how
the source reads the interface number — to a configured stream's interface
replies with exactly that stream's current alternate setting as one byte
(the input stream is consulted first), and is left unhandled when neither
configured stream matches.  The state is unchanged in all cases. -/
theorem get_interface_query (ac : AudioClass) (req : USBRequest)
    (h1 : req.requestType = RequestType.Standard)
    (h2 : req.recipient = Recipient.Interface)
    (h3 : req.request = GET_INTERFACE)
    (h4 : req.length = 1) :
    (∀ s, ac.input = some s → req.index % 256 = s.interface →
      controlIn ac req = (ac, some [s.altSetting])) ∧
    (∀ t, ac.output = some t → req.index % 256 = t.interface →
      (∀ s, ac.input = some s → req.index % 256 ≠ s.interface) →
      controlIn ac req = (ac, some [t.altSetting])) ∧
    ((∀ s, ac.input = some s → req.index % 256 ≠ s.interface) →
      (∀ t, ac.output = some t → req.index % 256 ≠ t.interface) →
      controlIn ac req = (ac, none)) := by
  refine ⟨?_, ?_, ?_⟩
  · intro s hs hm
    simp [controlIn, h1, h2, h3, h4, matchStream, hs, hm, Option.orElse]
  · intro t ht hm hnotin
    rcases hin : ac.input with _ | s
    · simp [controlIn, h1, h2, h3, h4, matchStream, hin, ht, hm, Option.orElse]
    · have hne := hnotin s hin
      rw [hm] at hne
      simp [controlIn, h1, h2, h3, h4, matchStream, hin, ht, hm, hne,
        Option.orElse]
  · intro hnotin hnotout
    rcases hin : ac.input with _ | s <;> rcases hout : ac.output with _ | t
    · simp [controlIn, h1, h2, h3, h4, matchStream, hin, hout, Option.orElse]
    · have hne := hnotout t hout
      simp [controlIn, h1, h2, h3, h4, matchStream, hin, hout, hne,
        Option.orElse]
    · have hne := hnotin s hin
      simp [controlIn, h1, h2, h3, h4, matchStream, hin, hout, hne,
        Option.orElse]
    · have hne := hnotin s hin
      have hne2 := hnotout t hout
      simp [controlIn, h1, h2, h3, h4, matchStream, hin, hout, hne, hne2,
        Option.orElse]

/-- Claim C5, witness: a matching and a non-matching addressed interface on
a two-stream class. -/
theorem get_interface_query_witness :
    controlIn c5ac c5reqIn = (c5ac, some [0]) ∧
    controlIn c5ac c5reqNone = (c5ac, none) :=
  ⟨(get_interface_query c5ac c5reqIn rfl rfl rfl rfl).1
      ⟨⟨.S16LE, 48000, 2, .usbStreaming⟩, 1, 0x81, 1, 0⟩ (by decide) (by decide),
   (get_interface_query c5ac c5reqNone rfl rfl rfl rfl).2.2
      (fun s hs => by
        have : s = ⟨⟨.S16LE, 48000, 2, .usbStreaming⟩, 1, 0x81, 1, 0⟩ := by
          have hh : c5ac.input
              = some ⟨⟨.S16LE, 48000, 2, .usbStreaming⟩, 1, 0x81, 1, 0⟩ := by
            decide
          rw [hh] at hs
          exact (Option.some.inj hs).symm
        rw [this]
        decide)
      (fun t ht => by
        have : t = ⟨⟨.S16LE, 48000, 2, .usbStreaming⟩, 2, 0x01, 1, 0⟩ := by
          have hh : c5ac.output
              = some ⟨⟨.S16LE, 48000, 2, .usbStreaming⟩, 2, 0x01, 1, 0⟩ := by
            decide
          rw [hh] at ht
          exact (Option.some.inj ht).symm
        rw [this]
        decide)⟩

/-- Claim C6: `read` fails with StreamNotInitialized exactly when no output
stream is configured and otherwise forwards the output endpoint's result
(wrapping transport errors); `write` does the same against the input
stream; and the two alternate-setting accessors return the stream's current
value, failing with StreamNotInitialized exactly when that direction was
never configured. -/
theorem data_path_errors :
    ∀ (ac : AudioClass) (eo ei : Except Nat Nat),
      (ac.read eo = Except.error Error.streamNotInitialized ↔
        ac.output = none) ∧
      (∀ s, ac.output = some s → ac.read eo = eo.mapError Error.usbError) ∧
      (ac.write ei = Except.error Error.streamNotInitialized ↔
        ac.input = none) ∧
      (∀ s, ac.input = some s → ac.write ei = ei.mapError Error.usbError) ∧
      (∀ s, ac.input = some s →
        ac.inputAltSetting = Except.ok s.altSetting) ∧
      (ac.input = none →
        ac.inputAltSetting = Except.error Error.streamNotInitialized) ∧
      (∀ s, ac.output = some s →
        ac.outputAltSetting = Except.ok s.altSetting) ∧
      (ac.output = none →
        ac.outputAltSetting = Except.error Error.streamNotInitialized) := by
  intro ac eo ei
  rcases hin : ac.input with _ | s <;> rcases hout : ac.output with _ | t <;>
    cases eo <;> cases ei <;>
      simp [AudioClass.read, AudioClass.write, AudioClass.inputAltSetting,
        AudioClass.outputAltSetting, hin, hout, Except.mapError]

/-- Claim C6, witness: a class with only an output stream forwards `read`,
fails `write` and `input_alt_setting`, and reports the output alternate
setting. -/
theorem data_path_errors_witness :
    AudioClass.read c6ac (Except.ok 196) = Except.ok 196 ∧
    AudioClass.write c6ac (Except.ok 196)
      = Except.error Error.streamNotInitialized ∧
    AudioClass.inputAltSetting c6ac
      = Except.error Error.streamNotInitialized ∧
    AudioClass.outputAltSetting c6ac = Except.ok 0 :=
  ⟨(data_path_errors c6ac (Except.ok 196) (Except.ok 196)).2.1
      ⟨⟨.S16LE, 48000, 2, .usbStreaming⟩, 1, 1, 1, 0⟩ (by decide),
   (data_path_errors c6ac (Except.ok 196) (Except.ok 196)).2.2.1.mpr
      (by decide),
   (data_path_errors c6ac (Except.ok 196) (Except.ok 196)).2.2.2.2.2.1
      (by decide),
   (data_path_errors c6ac (Except.ok 196) (Except.ok 196)).2.2.2.2.2.2.1
      ⟨⟨.S16LE, 48000, 2, .usbStreaming⟩, 1, 1, 1, 0⟩ (by decide)⟩

/-! Claim C4: the alternate-setting invariant. -/

/-- Claim C4, counterexample: `control_out` stores the SET_INTERFACE value
byte without validation, so a single host request with value 2 drives a
reachable state whose input stream has alternate setting 2 — outside
{0, 1}. -/
theorem alt_setting_invariant_cex :
    Reaches c4ac0 c4ac1 ∧ ¬ altOK c4ac1 := by
  constructor
  · exact Reaches.stepOut c4req (Reaches.refl c4ac0)
  · intro h
    have h2 := h.1 ⟨c4cfg, 1, 0x81, 1, 2⟩ (by decide)
    exact absurd h2 (by decide)

lemma controlIn_preserves_streams (ac : AudioClass) (req : USBRequest) :
    (controlIn ac req).1.input = ac.input ∧
    (controlIn ac req).1.output = ac.output := by
  constructor <;>
    (unfold controlIn; repeat' split) <;> rfl

lemma controlOut_altOK (ac : AudioClass) (req : USBRequest)
    (hok : altOK ac) (hv : req.request = SET_INTERFACE → req.value % 256 ≤ 1) :
    altOK (controlOut ac req).1 := by
  by_cases hc : (req.requestType = RequestType.Standard
      ∧ req.recipient = Recipient.Interface ∧ req.request = SET_INTERFACE)
  · have hle : req.value % 256 ≤ 1 := hv hc.2.2
    rcases hin : ac.input with _ | s
    · rcases hout : ac.output with _ | t
      · have he : (controlOut ac req).1 = ac := by
          simp [controlOut, hc, hin, hout]
        rw [he]
        exact hok
      · by_cases hm : req.index % 256 = t.interface
        · have he : (controlOut ac req).1
              = { ac with output := some { t with altSetting := req.value % 256 } } := by
            simp [controlOut, hc, hin, hout, hm]
          rw [he]
          refine ⟨fun u hu => hok.1 u hu, fun u hu => ?_⟩
          injection hu with h
          rw [← h]
          exact hle
        · have he : (controlOut ac req).1 = ac := by
            simp [controlOut, hc, hin, hout, hm]
          rw [he]
          exact hok
    · by_cases hm : req.index % 256 = s.interface
      · have he : (controlOut ac req).1
            = { ac with input := some { s with altSetting := req.value % 256 } } := by
          simp [controlOut, hc, hin, hm]
        rw [he]
        refine ⟨fun u hu => ?_, fun u hu => hok.2 u hu⟩
        injection hu with h
        rw [← h]
        exact hle
      · rcases hout : ac.output with _ | t
        · have he : (controlOut ac req).1 = ac := by
            simp [controlOut, hc, hin, hout, hm]
          rw [he]
          exact hok
        · by_cases hm2 : req.index % 256 = t.interface
          · have hts : ¬ t.interface = s.interface := by
              rw [hm2] at hm
              exact hm
            have he : (controlOut ac req).1
                = { ac with output := some { t with altSetting := req.value % 256 } } := by
              simp [controlOut, hc, hin, hout, hm, hm2, hts]
            rw [he]
            refine ⟨fun u hu => hok.1 u (hin ▸ hu), fun u hu => ?_⟩
            injection hu with h
            rw [← h]
            exact hle
          · have he : (controlOut ac req).1 = ac := by
              simp [controlOut, hc, hin, hout, hm, hm2]
            rw [he]
            exact hok
  · have he : (controlOut ac req).1 = ac := by
      simp only [controlOut, if_neg hc]
    rw [he]
    exact hok

lemma build_altOK (base : Nat) (inCfg outCfg : Option StreamConfig)
    (a b c d : Nat) : altOK (build base inCfg outCfg a b c d) := by
  constructor
  · intro s hs
    cases inCfg with
    | none => simp [build] at hs
    | some cfg =>
      simp [build] at hs
      rw [← hs]
      exact Nat.zero_le 1
  · intro s hs
    cases outCfg with
    | none => simp [build] at hs
    | some cfg =>
      simp [build] at hs
      rw [← hs]
      exact Nat.zero_le 1

/-- Claim C4 (amended): starting from any built class — whose streams are
initialized to the zero-bandwidth alternate setting 0 — and stepping by any
sequence of control transfers in which every SET_INTERFACE request carries
an alternate-setting byte of 0 or 1, each configured stream's alt_setting
stays in {0, 1}.  Without that restriction the invariant fails, because
`control_out` stores the request's value byte unvalidated. -/
theorem alt_setting_invariant :
    ∀ (base : Nat) (inCfg outCfg : Option StreamConfig) (a b c d : Nat)
      (ac : AudioClass),
      ReachesGood (build base inCfg outCfg a b c d) ac → altOK ac := by
  intro base inCfg outCfg a b c d ac h
  induction h with
  | refl => exact build_altOK base inCfg outCfg a b c d
  | stepIn req hr ih =>
    rename_i b
    have hp := controlIn_preserves_streams b req
    exact ⟨fun s hs => ih.1 s (hp.1 ▸ hs), fun s hs => ih.2 s (hp.2 ▸ hs)⟩
  | stepOut req hr hv ih => exact controlOut_altOK _ req ih hv

/-- Claim C4, witness: after a well-formed SET_INTERFACE (value 1) on a
built class, the invariant holds. -/
theorem alt_setting_invariant_witness :
    altOK (controlOut c4ac0 c4wreq).1 :=
  alt_setting_invariant 0 (some c4cfg) none 0x81 1 0 0 _
    (ReachesGood.stepOut c4wreq (ReachesGood.refl c4ac0)
      (fun _ => by decide))

/-! Claims C2 and C7: descriptor layout. -/

/-- Claim C2, counterexample: for one configured stream the total length is
9 + 8 + 29 = 46, and the AC header stores it as the bytes 46, 0 — the
little-endian order — not as the big-endian encoding 0, 46 the claim
states. -/
theorem descriptor_layout_cex :
    (descriptors c2ac).get? 2
      = some ⟨CS_INTERFACE, [HEADER, 0x00, 0x02, 0x00, 46, 0, 0x00]⟩ ∧
    beBytes2 (9 + 8 + 29 * nInterfaces c2ac) = [0, 46] ∧
    ¬ ((descriptors c2ac).get? 2
        = some ⟨CS_INTERFACE, [HEADER, 0x00, 0x02, 0x00, 0, 46, 0x00]⟩) := by
  decide

/-- Claim C2 (amended): the Audio Control header (the third record of the
descriptor stream) carries total length 9 + 8 + 29 * n_interfaces encoded
little-endian (the big-endian byte pair written swapped); the stream
contains exactly n_interfaces alternate-setting-1 AS interface descriptors,
standard endpoint descriptors and class-specific endpoint descriptors, all
of them after the Audio Control section, which holds no AS records while
the AS section holds no clock-source or terminal records; and each
direction's terminal pair occupies exactly the 29 bytes the total-length
formula accounts for. -/
theorem descriptor_layout :
    ∀ ac : AudioClass,
      (descriptors ac).get? 2
        = some ⟨CS_INTERFACE, [HEADER, 0x00, 0x02, 0x00,
            (9 + 8 + 29 * nInterfaces ac) % 256,
            (9 + 8 + 29 * nInterfaces ac) / 256, 0x00]⟩ ∧
      (descriptors ac).countP isASAlt1 = nInterfaces ac ∧
      (descriptors ac).countP isStdEp = nInterfaces ac ∧
      (descriptors ac).countP isCSEp = nInterfaces ac ∧
      descriptors ac = acSection ac ++ asSection ac ∧
      (acSection ac).countP isASAlt1 = 0 ∧
      (acSection ac).countP isStdEp = 0 ∧
      (acSection ac).countP isCSEp = 0 ∧
      (asSection ac).countP isClockSrcRec = 0 ∧
      (asSection ac).countP isInputTermRec = 0 ∧
      (asSection ac).countP isOutputTermRec = 0 ∧
      (∀ s, ((inputACCalls s).map callCost).sum = 29) ∧
      (∀ s, ((outputACCalls s).map callCost).sum = 29) := by
  intro ac
  obtain ⟨ci, inp, outp, ck⟩ := ac
  rcases inp with _ | s <;> rcases outp with _ | t <;>
    exact ⟨rfl, rfl, rfl, rfl, rfl, rfl, rfl, rfl, rfl, rfl, rfl,
      fun u => rfl, fun u => rfl⟩

/-- Claim C7, counterexample: for the 48 kHz stereo S16LE input stream the
standard endpoint descriptor carries the maximum packet size 196 as the
bytes 196, 0 — little-endian order — not as the big-endian order 0, 196
the claim states. -/
theorem ep_descriptor_cex :
    (inputASEpRecs c7s).get? 4
      = some ⟨0x05, [0x81, 0b00100101, 196, 0, 1]⟩ ∧
    beBytes2 c7s.streamConfig.packetSize = [0, 196] ∧
    ¬ ((inputASEpRecs c7s).get? 4
        = some ⟨0x05, [0x81, 0b00100101, 0, 196, 1]⟩) := by
  decide

/-- Claim C7 (amended): every input stream's standard endpoint descriptor
carries the isochronous/asynchronous/implicit-feedback-data attributes byte
0b00100101 and every output stream's the isochronous/asynchronous/data
byte 0b00000101, and the maximum-packet-size field holds the stream's
16-bit `packet_size()` in little-endian byte order (the big-endian byte
pair emitted swapped). -/
theorem ep_descriptor_attrs :
    ∀ s : AudioStream,
      (inputASEpRecs s).get? 4
        = some ⟨0x05, [s.epAddress, 0b00100101,
            s.streamConfig.packetSize % 256, s.streamConfig.packetSize / 256,
            s.epInterval]⟩ ∧
      (outputASEpRecs s).get? 4
        = some ⟨0x05, [s.epAddress, 0b00000101,
            s.streamConfig.packetSize % 256, s.streamConfig.packetSize / 256,
            s.epInterval]⟩ ∧
      [s.streamConfig.packetSize % 256, s.streamConfig.packetSize / 256]
        = leBytes2 s.streamConfig.packetSize := by
  intro s
  refine ⟨rfl, rfl, ?_⟩
  have hlt : s.streamConfig.packetSize < 65536 :=
    Nat.mod_lt _ (by norm_num)
  have hdiv : s.streamConfig.packetSize / 256 < 256 :=
    Nat.div_lt_of_lt_mul (by omega)
  simp [leBytes2, Nat.mod_eq_of_lt hdiv]

/-! Claim C9: error propagation in descriptor emission. -/

/-- Claim C9, failing run: against a writer with 25 bytes of space, the
class with no streams asks for exactly one Audio Control header record, the
header write fails for lack of space, its discarded error lets the run
continue, the following clock-source write still fits, and the emission
completes without panicking — the enclosing function returns success with
the header silently missing from the 3 emitted records, so the writer error
was swallowed, not surfaced. -/
theorem writer_error_swallowed :
    (runWriter c9w (getConfCalls c9ac)).2 = false ∧
    ((getConfCalls c9ac).map fun p => callRecord p.1).countP isACHeaderRec
      = 1 ∧
    (runWriter c9w (getConfCalls c9ac)).1.recs.countP isACHeaderRec = 0 ∧
    (runWriter c9w (getConfCalls c9ac)).1.recs.length = 3 := by
  decide

end UsbdAudio
